import Mathlib

/-!
Shallow embedding of the double-entry bookkeeping core of the ERP finance
system: the account registry, the journal engine (creation, approval,
rejection), the invoice/payment posting rules, and the reporting read model.

Monetary amounts are modelled as rationals (the source stores fixed-point
decimals).  Database identifiers are natural numbers, account codes are
strings.  Each state-mutating controller action is a function from the
persisted state to a pair of (new persisted state, optional error message):
writes performed before a thrown error persist, matching the source's lack
of transactions, so "rejected with no partial state" is a theorem, not a
modelling assumption.
-/

namespace ERP

inductive AccountType
  | ASSET | LIABILITY | EQUITY | REVENUE | EXPENSE
  deriving DecidableEq, Repr

inductive EntryStatus
  | DRAFT | PENDING | APPROVED | REJECTED
  deriving DecidableEq, Repr

inductive InvoiceType
  | RECEIVABLE | PAYABLE
  deriving DecidableEq, Repr

inductive InvoiceStatus
  | DRAFT | SENT | PARTIAL | PAID | OVERDUE | CANCELLED
  deriving DecidableEq, Repr

structure Account where
  id : Nat
  code : String
  name : String
  type : AccountType
  balance : Rat
  isActive : Bool
  deriving DecidableEq, Repr

structure JournalLine where
  accountId : Nat
  debit : Rat
  credit : Rat
  deriving DecidableEq, Repr

structure JournalEntry where
  id : Nat
  status : EntryStatus
  approvedAt : Option Nat
  lines : List JournalLine
  deriving DecidableEq, Repr

structure Invoice where
  id : Nat
  type : InvoiceType
  total : Rat
  status : InvoiceStatus
  deriving DecidableEq, Repr

structure Payment where
  id : Nat
  invoiceId : Nat
  amount : Rat
  deriving DecidableEq, Repr

structure CashFlowRecord where
  flowType : String
  category : String
  amount : Rat
  deriving DecidableEq, Repr

/-- The persisted database state the finance controllers read and write. -/
structure ERPState where
  accounts : List Account
  entries : List JournalEntry
  invoices : List Invoice
  payments : List Payment
  cashFlows : List CashFlowRecord
  audit : List String
  deriving DecidableEq, Repr

def findAccountById (accounts : List Account) (aid : Nat) : Option Account :=
  accounts.find? (fun a => a.id == aid)

def findAccountByCode (st : ERPState) (c : String) : Option Account :=
  st.accounts.find? (fun a => a.code == c)

def findEntry (st : ERPState) (eid : Nat) : Option JournalEntry :=
  st.entries.find? (fun e => e.id == eid)

def findInvoice (st : ERPState) (iid : Nat) : Option Invoice :=
  st.invoices.find? (fun i => i.id == iid)

/-- One row-level `balance: increment` update as issued by the controllers. -/
def applyBalanceDelta (accounts : List Account) (aid : Nat) (delta : Rat) :
    List Account :=
  accounts.map (fun a =>
    if a.id = aid then { a with balance := a.balance + delta } else a)

/-- The normal-balance rule from `approveJournalEntry`: debit-normal account
types (ASSET, EXPENSE) gain `debit − credit`; credit-normal types
(LIABILITY, EQUITY, REVENUE) gain `credit − debit`. -/
def balanceChange (t : AccountType) (debit credit : Rat) : Rat :=
  if t = AccountType.ASSET ∨ t = AccountType.EXPENSE then debit - credit
  else credit - debit

/-- One iteration of the balance-application loop in `approveJournalEntry`:
look the line's account up; if it is missing, `continue`; otherwise
increment its balance by the signed normal-balance delta. -/
def applyLine (accounts : List Account) (line : JournalLine) : List Account :=
  match findAccountById accounts line.accountId with
  | none => accounts
  | some account =>
      applyBalanceDelta accounts line.accountId
        (balanceChange account.type line.debit line.credit)

def applyLines (accounts : List Account) (lines : List JournalLine) :
    List Account :=
  lines.foldl applyLine accounts

def sumDebits (lines : List JournalLine) : Rat :=
  lines.foldl (fun sum l => sum + l.debit) 0

def sumCredits (lines : List JournalLine) : Rat :=
  lines.foldl (fun sum l => sum + l.credit) 0

/-- Embeds `createJournalEntry` (journal.controller.ts): reject when
`|Σdebit − Σcredit| > 0.01`, otherwise persist the entry (status defaults
to DRAFT per the schema) with all of its lines, plus an audit record. -/
def createJournalEntry (st : ERPState) (newId : Nat)
    (lines : List JournalLine) : ERPState × Option String :=
  let totalDebits := sumDebits lines
  let totalCredits := sumCredits lines
  if |totalDebits - totalCredits| > 1 / 100 then
    (st, some "Debits must equal credits")
  else
    ({ st with
        entries := st.entries ++
          [{ id := newId, status := EntryStatus.DRAFT, approvedAt := none,
             lines := lines }],
        audit := st.audit ++ ["CREATE JournalEntry"] }, none)

/-- Embeds `approveJournalEntry` (journal.controller.ts): 404 when the entry is
missing, refuse unless status is PENDING or DRAFT, otherwise mark it
APPROVED with an approval timestamp and run the balance-application loop
over its lines. -/
def approveJournalEntry (st : ERPState) (eid now : Nat) :
    ERPState × Option String :=
  match findEntry st eid with
  | none => (st, some "Journal entry not found")
  | some entry =>
      if entry.status ≠ EntryStatus.PENDING ∧
          entry.status ≠ EntryStatus.DRAFT then
        (st, some "Entry cannot be approved")
      else
        let st1 : ERPState := { st with
          entries := st.entries.map (fun e =>
            if e.id = eid then
              { e with status := EntryStatus.APPROVED, approvedAt := some now }
            else e) }
        let st2 : ERPState := { st1 with accounts := applyLines st1.accounts entry.lines }
        ({ st2 with audit := st2.audit ++ ["APPROVE JournalEntry"] }, none)

/-- Embeds `rejectJournalEntry` (journal.controller.ts): 404 when the entry is
missing; otherwise set status to REJECTED — the source performs no status
check before doing so. -/
def rejectJournalEntry (st : ERPState) (eid : Nat) :
    ERPState × Option String :=
  match findEntry st eid with
  | none => (st, some "Journal entry not found")
  | some _ =>
      ({ st with
          entries := st.entries.map (fun e =>
            if e.id = eid then { e with status := EntryStatus.REJECTED } else e),
          audit := st.audit ++ ["REJECT JournalEntry"] }, none)

structure InvoiceItem where
  quantity : Rat
  unitPrice : Rat
  deriving DecidableEq, Repr

def invoiceSubtotal (items : List InvoiceItem) : Rat :=
  items.foldl (fun s it => s + it.quantity * it.unitPrice) 0

/-- Invoice total, `subtotal + tax` with `tax = subtotal × 0` as in the source. -/
def invoiceTotal (items : List InvoiceItem) : Rat :=
  invoiceSubtotal items + invoiceSubtotal items * 0

/-- Embeds `createInvoice` (invoice controller): persist the invoice, then — when
the configured posting accounts exist — create one auto-approved journal
entry (AR debit / Revenue credit for RECEIVABLE, COGS debit / AP credit
for PAYABLE) and increment both account balances by the invoice total.
When a posting account is missing the posting is silently skipped. -/
def createInvoice (st : ERPState) (itype : InvoiceType)
    (items : List InvoiceItem) (newInvoiceId newEntryId now : Nat) :
    ERPState × Option String :=
  let total := invoiceTotal items
  let st1 : ERPState := { st with
    invoices := st.invoices ++
      [{ id := newInvoiceId, type := itype, total := total,
         status := InvoiceStatus.DRAFT }] }
  let arAccount := findAccountByCode st1 "1100"
  let apAccount := findAccountByCode st1 "2000"
  let revenueAccount := findAccountByCode st1 "4100"
  let cogsAccount := findAccountByCode st1 "5000"
  let st2 : ERPState :=
    if itype = InvoiceType.RECEIVABLE then
      match arAccount, revenueAccount with
      | some ar, some revenue =>
          { st1 with
            entries := st1.entries ++
              [{ id := newEntryId, status := EntryStatus.APPROVED,
                 approvedAt := some now,
                 lines := [{ accountId := ar.id, debit := total, credit := 0 },
                           { accountId := revenue.id, debit := 0,
                             credit := total }] }],
            accounts := applyBalanceDelta
              (applyBalanceDelta st1.accounts ar.id total) revenue.id total }
      | _, _ => st1
    else
      match apAccount, cogsAccount with
      | some ap, some cogs =>
          { st1 with
            entries := st1.entries ++
              [{ id := newEntryId, status := EntryStatus.APPROVED,
                 approvedAt := some now,
                 lines := [{ accountId := cogs.id, debit := total, credit := 0 },
                           { accountId := ap.id, debit := 0,
                             credit := total }] }],
            accounts := applyBalanceDelta
              (applyBalanceDelta st1.accounts cogs.id total) ap.id total }
      | _, _ => st1
  ({ st2 with audit := st2.audit ++ ["CREATE Invoice"] }, none)

/-- Sum of the recorded payments against one invoice
(`invoice.payments.reduce((sum, p) => sum.plus(p.amount), 0)`). -/
def paymentsTotal (payments : List Payment) (iid : Nat) : Rat :=
  (payments.filter (fun p => p.invoiceId == iid)).foldl
    (fun sum p => sum + p.amount) 0

/-- The journal lines built inside `recordPayment`: Cash debit / AR credit
when the invoice is RECEIVABLE and the AR account exists; otherwise
AP debit / Cash credit when the AP account exists; otherwise none. -/
def paymentLines (itype : InvoiceType) (cashId : Nat)
    (arAccount apAccount : Option Account) (amount : Rat) :
    Option (List JournalLine) :=
  match itype, arAccount with
  | InvoiceType.RECEIVABLE, some ar =>
      some [{ accountId := cashId, debit := amount, credit := 0 },
            { accountId := ar.id, debit := 0, credit := amount }]
  | _, _ =>
      match apAccount with
      | some ap =>
          some [{ accountId := ap.id, debit := amount, credit := 0 },
                { accountId := cashId, debit := 0, credit := amount }]
      | none => none

/-- The balance updates performed inside `recordPayment`, mirroring the
branch structure of `paymentLines`: Cash up / AR down for a customer
payment, AP down / Cash down for a vendor payment. -/
def paymentBalanceUpdate (itype : InvoiceType) (cashId : Nat)
    (arAccount apAccount : Option Account) (amount : Rat)
    (accounts : List Account) : List Account :=
  match itype, arAccount with
  | InvoiceType.RECEIVABLE, some ar =>
      applyBalanceDelta (applyBalanceDelta accounts cashId amount)
        ar.id (-amount)
  | _, _ =>
      match apAccount with
      | some ap =>
          applyBalanceDelta (applyBalanceDelta accounts ap.id (-amount))
            cashId (-amount)
      | none => accounts

/-- Embeds `recordPayment` (invoice controller, POST /invoices/:id/payments):
404 on a missing invoice, refuse on a PAID invoice, refuse a payment
exceeding the remaining balance; otherwise persist the payment, set the
invoice status to PAID when cumulative payments reach the total and
PARTIAL otherwise, and — when the Cash account plus a suitable AR/AP
account exist — create an auto-approved journal entry and apply the
corresponding balance deltas. -/
def recordPayment (st : ERPState) (iid : Nat) (amount : Rat)
    (newPaymentId newEntryId now : Nat) : ERPState × Option String :=
  match findInvoice st iid with
  | none => (st, some "Invoice not found")
  | some invoice =>
      if invoice.status = InvoiceStatus.PAID then
        (st, some "Invoice is already fully paid")
      else
        let totalPaid := paymentsTotal st.payments iid
        let remaining := invoice.total - totalPaid
        if amount > remaining then
          (st, some "Payment amount exceeds remaining balance")
        else
          let st1 : ERPState := { st with
            payments := st.payments ++
              [{ id := newPaymentId, invoiceId := iid, amount := amount }] }
          let isFullyPaid := totalPaid + amount ≥ invoice.total
          let st2 : ERPState := { st1 with
            invoices := st1.invoices.map (fun i =>
              if i.id = iid then
                { i with status :=
                    if isFullyPaid then InvoiceStatus.PAID
                    else InvoiceStatus.PARTIAL }
              else i) }
          let cashAccount := findAccountByCode st2 "1000"
          let arAccount := findAccountByCode st2 "1100"
          let apAccount := findAccountByCode st2 "2000"
          let st3 : ERPState :=
            match cashAccount with
            | none => st2
            | some cash =>
                if arAccount.isSome ∨ apAccount.isSome then
                  match paymentLines invoice.type cash.id arAccount apAccount
                      amount with
                  | none => st2
                  | some ls =>
                      { st2 with
                        entries := st2.entries ++
                          [{ id := newEntryId, status := EntryStatus.APPROVED,
                             approvedAt := some now, lines := ls }],
                        accounts := paymentBalanceUpdate invoice.type cash.id
                          arAccount apAccount amount st2.accounts }
                else st2
          ({ st3 with audit := st3.audit ++ ["CREATE Payment"] }, none)

/-- Embeds `createPayment` (payment controller, POST /payments): 404 on a missing
invoice, refuse a payment exceeding the remaining balance; otherwise
persist the payment, set the invoice status to PAID exactly when the new
cumulative amount equals the total (PARTIAL otherwise), and append a cash
flow record.  No journal entry and no balance change on this path. -/
def createPayment (st : ERPState) (iid : Nat) (amount : Rat)
    (newPaymentId : Nat) : ERPState × Option String :=
  match findInvoice st iid with
  | none => (st, some "Invoice not found")
  | some invoice =>
      let paidAmount := paymentsTotal st.payments iid
      let remainingAmount := invoice.total - paidAmount
      if amount > remainingAmount then
        (st, some "Payment amount exceeds remaining balance")
      else
        let st1 : ERPState := { st with
          payments := st.payments ++
            [{ id := newPaymentId, invoiceId := iid, amount := amount }] }
        let newStatus :=
          if paidAmount + amount = invoice.total then InvoiceStatus.PAID
          else InvoiceStatus.PARTIAL
        let st2 : ERPState := { st1 with
          invoices := st1.invoices.map (fun i =>
            if i.id = iid then { i with status := newStatus } else i) }
        ({ st2 with
            cashFlows := st2.cashFlows ++
              [{ flowType :=
                   if invoice.type = InvoiceType.RECEIVABLE then "INFLOW"
                   else "OUTFLOW",
                 category :=
                   if invoice.type = InvoiceType.RECEIVABLE then
                     "Customer Payment"
                   else "Vendor Payment",
                 amount := amount }],
            audit := st2.audit ++ ["CREATE Payment"] }, none)

def sumBalances (accounts : List Account) : Rat :=
  accounts.foldl (fun sum a => sum + a.balance) 0

/-- The active accounts of one type, as filtered by the report controller. -/
def activeOfType (accounts : List Account) (t : AccountType) : List Account :=
  (accounts.filter (fun a => a.isActive)).filter
    (fun a => decide (a.type = t))

structure BalanceSheet where
  totalAssets : Rat
  totalLiabilities : Rat
  totalEquity : Rat
  totalLiabilitiesAndEquity : Rat
  isBalanced : Bool
  deriving DecidableEq, Repr

/-- Embeds `getBalanceSheet` (report.controller.ts): partition the active accounts
by type, sum the balances, and report
`isBalanced = |totalAssets − (totalLiabilities + totalEquity)| < 0.01`.
The current/fixed and current/long-term sub-splits of the response are
name-heuristic groupings of the same balances and are not reproduced here. -/
def getBalanceSheet (accounts : List Account) : BalanceSheet :=
  let assets := activeOfType accounts AccountType.ASSET
  let liabilities := activeOfType accounts AccountType.LIABILITY
  let equity := activeOfType accounts AccountType.EQUITY
  let totalAssets := sumBalances assets
  let totalLiabilities := sumBalances liabilities
  let totalEquity := sumBalances equity
  { totalAssets := totalAssets
    totalLiabilities := totalLiabilities
    totalEquity := totalEquity
    totalLiabilitiesAndEquity := totalLiabilities + totalEquity
    isBalanced :=
      decide (|totalAssets - (totalLiabilities + totalEquity)| < 1 / 100) }

/-- Case-insensitive substring test used by the report controller's
`name.toLowerCase().includes(...)` expense categorisation. -/
def nameIncludes (name token : String) : Bool :=
  (name.toLower.splitOn token).length != 1

def isCogsLike (a : Account) : Bool :=
  nameIncludes a.name "cost" || nameIncludes a.name "material" ||
    nameIncludes a.name "labor"

structure ProfitLoss where
  periodStart : Nat
  periodEnd : Nat
  totalRevenue : Rat
  totalExpenses : Rat
  cogsTotal : Rat
  operatingTotal : Rat
  grossProfit : Rat
  operatingIncome : Rat
  netIncome : Rat
  deriving DecidableEq, Repr

/-- Embeds `getProfitLoss` (report.controller.ts): sum the active REVENUE and
EXPENSE account balances, split expenses into COGS-like and operating by
the name heuristic, and echo the requested period.  The queried account
balances are all-time; the period parameters feed only the echoed
`period` field. -/
def getProfitLoss (accounts : List Account) (startDate endDate : Nat) :
    ProfitLoss :=
  let revenue := activeOfType accounts AccountType.REVENUE
  let expenses := activeOfType accounts AccountType.EXPENSE
  let totalRevenue := sumBalances revenue
  let totalExpenses := sumBalances expenses
  let cogsTotal := sumBalances (expenses.filter isCogsLike)
  let operatingTotal := sumBalances (expenses.filter (fun a => !isCogsLike a))
  { periodStart := startDate
    periodEnd := endDate
    totalRevenue := totalRevenue
    totalExpenses := totalExpenses
    cogsTotal := cogsTotal
    operatingTotal := operatingTotal
    grossProfit := totalRevenue - cogsTotal
    operatingIncome := totalRevenue - cogsTotal - operatingTotal
    netIncome := totalRevenue - totalExpenses }

/-- Modelled from the spec: the balance-check formula the specification
ascribes to the Balance Sheet report,
`|totalAssets − (totalLiabilities + totalEquity + netIncome)| < 0.01`,
with `netIncome` the revenue total minus the expense total; the source's
`getBalanceSheet` computes no net-income term, so this formula exists only
in the spec's words and is stated here for comparison. -/
def specBalanceSheetBalanced (accounts : List Account) : Prop :=
  |sumBalances (activeOfType accounts AccountType.ASSET) -
      (sumBalances (activeOfType accounts AccountType.LIABILITY) +
        sumBalances (activeOfType accounts AccountType.EQUITY) +
        (sumBalances (activeOfType accounts AccountType.REVENUE) -
          sumBalances (activeOfType accounts AccountType.EXPENSE)))| <
    1 / 100

instance (accounts : List Account) :
    Decidable (specBalanceSheetBalanced accounts) := by
  unfold specBalanceSheetBalanced
  infer_instance

/-! ## Derived notions used by the verified properties -/

/-- Primary-key uniqueness of account rows. -/
def idsNodup (accounts : List Account) : Prop :=
  (accounts.map Account.id).Nodup

instance (accounts : List Account) : Decidable (idsNodup accounts) := by
  unfold idsNodup
  infer_instance

/-- The signed contribution of one journal line to one account's balance
under the normal-balance rule: zero unless the line references the
account. -/
def lineDelta (a : Account) (l : JournalLine) : Rat :=
  if l.accountId = a.id then balanceChange a.type l.debit l.credit else 0

/-- The signed contribution of a whole entry's lines to one account. -/
def entryDelta (a : Account) (lines : List JournalLine) : Rat :=
  (lines.map (lineDelta a)).sum

lemma balance_set_self (a : Account) :
    { a with balance := a.balance + 0 } = a := by
  cases a; simp

lemma lineDelta_congr {a b : Account} (hid : b.id = a.id)
    (ht : b.type = a.type) (l : JournalLine) : lineDelta b l = lineDelta a l := by
  simp [lineDelta, hid, ht]

lemma entryDelta_congr {a b : Account} (hid : b.id = a.id)
    (ht : b.type = a.type) (lines : List JournalLine) :
    entryDelta b lines = entryDelta a lines := by
  unfold entryDelta
  induction lines with
  | nil => rfl
  | cons l ls ih => simp [List.map_cons, ih, lineDelta_congr hid ht]

lemma applyLine_map_id (accounts : List Account) (l : JournalLine) :
    (applyLine accounts l).map Account.id = accounts.map Account.id := by
  unfold applyLine
  cases hf : findAccountById accounts l.accountId with
  | none => rfl
  | some acc =>
      unfold applyBalanceDelta
      rw [List.map_map]
      refine List.map_congr_left (fun a _ => ?_)
      by_cases hcase : a.id = l.accountId <;> simp [hcase]

lemma applyLine_eq_map (accounts : List Account) (l : JournalLine)
    (h : idsNodup accounts) :
    applyLine accounts l =
      accounts.map (fun a => { a with balance := a.balance + lineDelta a l }) := by
  unfold applyLine
  cases hf : findAccountById accounts l.accountId with
  | none =>
      have hni : ∀ a ∈ accounts, a.id ≠ l.accountId := by
        intro a ha
        have := List.find?_eq_none.mp hf a ha
        simpa using this
      symm
      calc accounts.map (fun a => { a with balance := a.balance + lineDelta a l })
          = accounts.map id := by
            refine List.map_congr_left (fun a ha => ?_)
            have : l.accountId ≠ a.id := fun hc => hni a ha hc.symm
            simp [lineDelta, this, balance_set_self]
        _ = accounts := List.map_id accounts
  | some acc =>
      have hmem : acc ∈ accounts := List.mem_of_find?_eq_some hf
      have hid : acc.id = l.accountId := by
        have := List.find?_some hf
        simpa using this
      unfold applyBalanceDelta
      refine List.map_congr_left (fun a ha => ?_)
      by_cases hcase : a.id = l.accountId
      · have haeq : a = acc :=
          List.inj_on_of_nodup_map h ha hmem (by rw [hcase, hid])
        rw [if_pos hcase]
        have : lineDelta a l = balanceChange acc.type l.debit l.credit := by
          rw [haeq]
          simp [lineDelta, hid]
        rw [this]
      · rw [if_neg hcase]
        have : l.accountId ≠ a.id := fun hc => hcase hc.symm
        simp [lineDelta, this, balance_set_self]

lemma applyLines_eq_map (lines : List JournalLine) (accounts : List Account)
    (h : idsNodup accounts) :
    applyLines accounts lines =
      accounts.map (fun a =>
        { a with balance := a.balance + entryDelta a lines }) := by
  induction lines generalizing accounts with
  | nil =>
      symm
      calc accounts.map (fun a => { a with balance := a.balance + entryDelta a [] })
          = accounts.map id := by
            refine List.map_congr_left (fun a _ => ?_)
            simp [entryDelta, balance_set_self]
        _ = accounts := List.map_id accounts
  | cons l ls ih =>
      have hstep : applyLines accounts (l :: ls) =
          applyLines (applyLine accounts l) ls := rfl
      have h' : idsNodup (applyLine accounts l) := by
        unfold idsNodup
        rw [applyLine_map_id]
        exact h
      rw [hstep, ih (applyLine accounts l) h', applyLine_eq_map accounts l h,
        List.map_map]
      refine List.map_congr_left (fun a _ => ?_)
      simp only [Function.comp]
      have hed : entryDelta
          { a with balance := a.balance + lineDelta a l } ls =
          entryDelta a ls := entryDelta_congr rfl rfl ls
      rw [hed]
      simp [entryDelta, add_assoc]

/-- Updating selected rows by key leaves lookup of the found row tracking
the update: if `find?` on key `k` returns `x`, then after mapping
`if key a = k then g a else a` over the list (for a key-preserving `g`),
`find?` returns `g x`. -/
lemma find?_key_map {α : Type} (key : α → Nat) (k : Nat) (g : α → α)
    (hg : ∀ a, key (g a) = key a) (l : List α) (x : α)
    (h : l.find? (fun a => key a == k) = some x) :
    (l.map (fun a => if key a = k then g a else a)).find?
      (fun a => key a == k) = some (g x) := by
  induction l with
  | nil => simp at h
  | cons a t ih =>
      by_cases ha : key a = k
      · have hx : x = a := by
          have : (a :: t).find? (fun a => key a == k) = some a :=
            List.find?_cons_of_pos _ (by simpa using ha)
          rw [this] at h
          exact (Option.some_injective _ h).symm
        subst hx
        simp only [List.map_cons, if_pos ha]
        exact List.find?_cons_of_pos _ (by simpa using (hg x).trans ha)
      · have hstep : (a :: t).find? (fun a => key a == k) =
            t.find? (fun a => key a == k) :=
          List.find?_cons_of_neg _ (by simpa using ha)
        rw [hstep] at h
        simp only [List.map_cons, if_neg ha]
        rw [List.find?_cons_of_neg _ (by simpa using ha)]
        exact ih h

lemma foldl_add_balance (l : List Account) (init : Rat) :
    l.foldl (fun s a => s + a.balance) init =
      init + (l.map Account.balance).sum := by
  induction l generalizing init with
  | nil => simp
  | cons a t ih => simp [List.foldl_cons, ih, add_assoc]

lemma sumBalances_eq (l : List Account) :
    sumBalances l = (l.map Account.balance).sum := by
  unfold sumBalances
  rw [foldl_add_balance, zero_add]

lemma foldl_add_amount (l : List Payment) (init : Rat) :
    l.foldl (fun s p => s + p.amount) init =
      init + (l.map Payment.amount).sum := by
  induction l generalizing init with
  | nil => simp
  | cons p t ih => simp [List.foldl_cons, ih, add_assoc]

lemma paymentsTotal_eq (ps : List Payment) (iid : Nat) :
    paymentsTotal ps iid =
      ((ps.filter (fun p => p.invoiceId == iid)).map Payment.amount).sum := by
  unfold paymentsTotal
  rw [foldl_add_amount, zero_add]

/-- Appending one payment adds its amount to the running total of exactly
its invoice. -/
lemma paymentsTotal_append (ps : List Payment) (p : Payment) (iid : Nat) :
    paymentsTotal (ps ++ [p]) iid =
      paymentsTotal ps iid + (if p.invoiceId = iid then p.amount else 0) := by
  rw [paymentsTotal_eq, paymentsTotal_eq, List.filter_append]
  by_cases hp : p.invoiceId = iid
  · simp [hp]
  · simp [hp]

/-- Two successive row-level balance increments, expressed as one pass. -/
lemma applyBalanceDelta_twice (accounts : List Account) (i j : Nat)
    (x y : Rat) :
    applyBalanceDelta (applyBalanceDelta accounts i x) j y =
      accounts.map (fun a =>
        { a with balance := a.balance +
            ((if a.id = i then x else 0) + (if a.id = j then y else 0)) }) := by
  unfold applyBalanceDelta
  rw [List.map_map]
  refine List.map_congr_left (fun a _ => ?_)
  simp only [Function.comp]
  by_cases hi : a.id = i
  · subst hi
    by_cases hj : a.id = j
    · subst hj
      simp [add_assoc]
    · simp [hj]
  · by_cases hj : a.id = j
    · subst hj
      simp [hi]
    · simp [hi, hj]

/-! ## Example fixtures -/

def acctCash : Account :=
  { id := 1, code := "1000", name := "Cash", type := AccountType.ASSET,
    balance := 0, isActive := true }

def acctAR : Account :=
  { id := 2, code := "1100", name := "Accounts Receivable",
    type := AccountType.ASSET, balance := 0, isActive := true }

def acctAP : Account :=
  { id := 3, code := "2000", name := "Accounts Payable",
    type := AccountType.LIABILITY, balance := 0, isActive := true }

def acctRevenue : Account :=
  { id := 4, code := "4100", name := "Service Revenue",
    type := AccountType.REVENUE, balance := 0, isActive := true }

def baseAccounts : List Account := [acctCash, acctAR, acctAP, acctRevenue]

/-! ## C1 -/

/-- C1: when `approveJournalEntry` succeeds on an entry whose status is
DRAFT or PENDING, every account's stored balance is incremented by the
signed delta of the entry's lines referencing it under the normal-balance
rule — `debit − credit` for ASSET and EXPENSE accounts, `credit − debit`
for LIABILITY, EQUITY and REVENUE accounts (`entryDelta` sums
`balanceChange` over the matching lines). -/
theorem approveJournalEntry_applies_normal_balance
    (st : ERPState) (eid now : Nat) (entry : JournalEntry)
    (hids : idsNodup st.accounts)
    (hentry : findEntry st eid = some entry)
    (hst : entry.status = EntryStatus.DRAFT ∨
      entry.status = EntryStatus.PENDING) :
    ((approveJournalEntry st eid now).1).accounts =
      st.accounts.map (fun a =>
        { a with balance := a.balance + entryDelta a entry.lines }) := by
  simp only [approveJournalEntry, hentry]
  have hguard : ¬(entry.status ≠ EntryStatus.PENDING ∧
      entry.status ≠ EntryStatus.DRAFT) := by
    rcases hst with h | h <;> simp [h]
  rw [if_neg hguard]
  exact applyLines_eq_map entry.lines st.accounts hids

def entryC1 : JournalEntry :=
  { id := 10, status := EntryStatus.PENDING, approvedAt := none,
    lines := [{ accountId := 2, debit := 100, credit := 0 },
              { accountId := 4, debit := 0, credit := 100 }] }

def stC1 : ERPState :=
  { accounts := baseAccounts, entries := [entryC1], invoices := [],
    payments := [], cashFlows := [], audit := [] }

theorem approveJournalEntry_applies_normal_balance_witness :
    ((approveJournalEntry stC1 10 7).1).accounts =
      stC1.accounts.map (fun a =>
        { a with balance := a.balance + entryDelta a entryC1.lines }) :=
  approveJournalEntry_applies_normal_balance stC1 10 7 entryC1
    (by decide) (by decide) (Or.inr rfl)

/-! ## C2 -/

/-- C2: a `createJournalEntry` call whose line debits and credits differ
by more than 0.01 fails with the validation error and persists nothing
(the state is returned unchanged); a call within the 0.01 tolerance
persists the entry with all of its lines (and an audit record), touching
nothing else. -/
theorem createJournalEntry_balance_validation
    (st : ERPState) (newId : Nat) (lines : List JournalLine) :
    (|sumDebits lines - sumCredits lines| > 1 / 100 →
      createJournalEntry st newId lines =
        (st, some "Debits must equal credits")) ∧
    (|sumDebits lines - sumCredits lines| ≤ 1 / 100 →
      createJournalEntry st newId lines =
        ({ st with
            entries := st.entries ++
              [{ id := newId, status := EntryStatus.DRAFT,
                 approvedAt := none, lines := lines }],
            audit := st.audit ++ ["CREATE JournalEntry"] }, none)) := by
  constructor
  · intro h
    simp only [createJournalEntry, if_pos h]
  · intro h
    simp only [createJournalEntry, if_neg (not_lt.mpr h)]

def linesUnbalanced : List JournalLine :=
  [{ accountId := 2, debit := 500, credit := 0 },
   { accountId := 4, debit := 0, credit := 480 }]

def linesBalanced : List JournalLine :=
  [{ accountId := 2, debit := 500, credit := 0 },
   { accountId := 4, debit := 0, credit := 500 }]

def stEmpty : ERPState :=
  { accounts := baseAccounts, entries := [], invoices := [], payments := [],
    cashFlows := [], audit := [] }

theorem createJournalEntry_balance_validation_witness :
    createJournalEntry stEmpty 1 linesUnbalanced =
      (stEmpty, some "Debits must equal credits") ∧
    createJournalEntry stEmpty 1 linesBalanced =
      ({ stEmpty with
          entries := [{ id := 1, status := EntryStatus.DRAFT,
                        approvedAt := none, lines := linesBalanced }],
          audit := ["CREATE JournalEntry"] }, none) :=
  ⟨(createJournalEntry_balance_validation stEmpty 1 linesUnbalanced).1
      (by norm_num [sumDebits, sumCredits, linesUnbalanced]),
   (createJournalEntry_balance_validation stEmpty 1 linesBalanced).2
      (by norm_num [sumDebits, sumCredits, linesBalanced])⟩

/-! ## C3 -/

/-- C3: approving an entry whose status is APPROVED or REJECTED fails with
the invalid-transition error and returns the state unchanged — in
particular every account balance is exactly what it was before the call,
so balance application runs at most once per entry. -/
theorem approveJournalEntry_terminal_fails
    (st : ERPState) (eid now : Nat) (entry : JournalEntry)
    (hentry : findEntry st eid = some entry)
    (hterm : entry.status = EntryStatus.APPROVED ∨
      entry.status = EntryStatus.REJECTED) :
    approveJournalEntry st eid now = (st, some "Entry cannot be approved") := by
  simp only [approveJournalEntry, hentry]
  have hguard : entry.status ≠ EntryStatus.PENDING ∧
      entry.status ≠ EntryStatus.DRAFT := by
    rcases hterm with h | h <;> simp [h]
  rw [if_pos hguard]

def entryApproved : JournalEntry :=
  { id := 11, status := EntryStatus.APPROVED, approvedAt := some 1,
    lines := [{ accountId := 2, debit := 5, credit := 0 },
              { accountId := 4, debit := 0, credit := 5 }] }

def stApproved : ERPState :=
  { accounts := [{ acctCash with balance := 0 },
                 { acctAR with balance := 5 },
                 acctAP,
                 { acctRevenue with balance := 5 }],
    entries := [entryApproved], invoices := [], payments := [],
    cashFlows := [], audit := [] }

theorem approveJournalEntry_terminal_fails_witness :
    approveJournalEntry stApproved 11 9 =
      (stApproved, some "Entry cannot be approved") :=
  approveJournalEntry_terminal_fails stApproved 11 9 entryApproved
    (by decide) (Or.inl rfl)

/-! ## C4 -/

/-- C4 counterexample: `rejectJournalEntry` performs no status check, so
on a state holding an APPROVED entry the call succeeds and moves the entry
to REJECTED — refuting both that rejection fails outside DRAFT/PENDING and
that APPROVED is a terminal status. -/
theorem rejectJournalEntry_accepts_terminal_cex :
    findEntry stApproved 11 = some entryApproved ∧
    entryApproved.status = EntryStatus.APPROVED ∧
    (rejectJournalEntry stApproved 11).2 = none ∧
    findEntry (rejectJournalEntry stApproved 11).1 11 =
      some { entryApproved with status := EntryStatus.REJECTED } := by
  refine ⟨by decide, rfl, by decide, by decide⟩

/-- C4 (amended): `rejectJournalEntry` fails only when the entry does not
exist; whenever the entry exists it succeeds and sets the status to
REJECTED regardless of the current status — so APPROVED is not terminal
under rejection.  REJECTED remains terminal: rejecting a REJECTED entry
leaves it REJECTED and approving it fails with the state unchanged. -/
theorem rejectJournalEntry_no_transition_guard
    (st : ERPState) (eid now : Nat) :
    (∀ entry, findEntry st eid = some entry →
      (rejectJournalEntry st eid).2 = none ∧
      findEntry (rejectJournalEntry st eid).1 eid =
        some { entry with status := EntryStatus.REJECTED }) ∧
    (findEntry st eid = none →
      rejectJournalEntry st eid = (st, some "Journal entry not found")) ∧
    (∀ entry, findEntry st eid = some entry →
      entry.status = EntryStatus.REJECTED →
      approveJournalEntry st eid now =
        (st, some "Entry cannot be approved")) := by
  refine ⟨?_, ?_, ?_⟩
  · intro entry hentry
    refine ⟨by simp only [rejectJournalEntry, hentry], ?_⟩
    simp only [rejectJournalEntry, hentry]
    exact find?_key_map JournalEntry.id eid
      (fun e => { e with status := EntryStatus.REJECTED })
      (fun _ => rfl) st.entries entry hentry
  · intro h
    simp only [rejectJournalEntry, h]
  · intro entry hentry hrej
    simp only [approveJournalEntry, hentry]
    rw [if_pos ⟨by simp [hrej], by simp [hrej]⟩]

theorem rejectJournalEntry_no_transition_guard_witness :
    (rejectJournalEntry stApproved 11).2 = none ∧
    findEntry (rejectJournalEntry stApproved 11).1 11 =
      some { entryApproved with status := EntryStatus.REJECTED } :=
  (rejectJournalEntry_no_transition_guard stApproved 11 0).1 entryApproved
    (by decide)

/-! ## C10 -/

/-- C10: a successful `rejectJournalEntry` call modifies only the targeted
entry's status (to REJECTED) plus the audit trail: accounts — hence every
balance delta applied at an earlier approval — invoices, payments and cash
flow records are all returned exactly as they were. -/
theorem rejectJournalEntry_frame
    (st : ERPState) (eid : Nat) (entry : JournalEntry)
    (hentry : findEntry st eid = some entry) :
    (rejectJournalEntry st eid).1.accounts = st.accounts ∧
    (rejectJournalEntry st eid).1.invoices = st.invoices ∧
    (rejectJournalEntry st eid).1.payments = st.payments ∧
    (rejectJournalEntry st eid).1.cashFlows = st.cashFlows ∧
    (rejectJournalEntry st eid).1.entries =
      st.entries.map (fun e =>
        if e.id = eid then { e with status := EntryStatus.REJECTED } else e) ∧
    (rejectJournalEntry st eid).1.audit =
      st.audit ++ ["REJECT JournalEntry"] ∧
    (rejectJournalEntry st eid).2 = none := by
  simp [rejectJournalEntry, hentry]

theorem rejectJournalEntry_frame_witness :
    (rejectJournalEntry stApproved 11).1.accounts = stApproved.accounts ∧
    (rejectJournalEntry stApproved 11).1.invoices = stApproved.invoices ∧
    (rejectJournalEntry stApproved 11).1.payments = stApproved.payments ∧
    (rejectJournalEntry stApproved 11).1.cashFlows = stApproved.cashFlows ∧
    (rejectJournalEntry stApproved 11).1.entries =
      stApproved.entries.map (fun e =>
        if e.id = 11 then { e with status := EntryStatus.REJECTED } else e) ∧
    (rejectJournalEntry stApproved 11).1.audit =
      stApproved.audit ++ ["REJECT JournalEntry"] ∧
    (rejectJournalEntry stApproved 11).2 = none :=
  rejectJournalEntry_frame stApproved 11 entryApproved (by decide)

/-! ## C7 -/

/-- C7: when the Accounts Receivable account (code 1100) and the Service
Revenue account (code 4100) exist, creating a RECEIVABLE invoice succeeds
and appends exactly one auto-approved journal entry with exactly two
lines — a debit of the invoice total against AR and a credit of the
invoice total against Revenue — increments both accounts' balances by the
invoice total (leaving every other balance unchanged), and persists the
invoice itself. -/
theorem createInvoice_receivable_posting
    (st : ERPState) (items : List InvoiceItem)
    (newInvoiceId newEntryId now : Nat) (ar revenue : Account)
    (har : findAccountByCode st "1100" = some ar)
    (hrev : findAccountByCode st "4100" = some revenue) :
    (createInvoice st InvoiceType.RECEIVABLE items newInvoiceId newEntryId
      now).2 = none ∧
    (createInvoice st InvoiceType.RECEIVABLE items newInvoiceId newEntryId
      now).1.entries =
      st.entries ++
        [{ id := newEntryId, status := EntryStatus.APPROVED,
           approvedAt := some now,
           lines := [{ accountId := ar.id, debit := invoiceTotal items,
                       credit := 0 },
                     { accountId := revenue.id, debit := 0,
                       credit := invoiceTotal items }] }] ∧
    (createInvoice st InvoiceType.RECEIVABLE items newInvoiceId newEntryId
      now).1.accounts =
      st.accounts.map (fun a =>
        { a with balance := a.balance +
            ((if a.id = ar.id then invoiceTotal items else 0) +
             (if a.id = revenue.id then invoiceTotal items else 0)) }) ∧
    (createInvoice st InvoiceType.RECEIVABLE items newInvoiceId newEntryId
      now).1.invoices =
      st.invoices ++
        [{ id := newInvoiceId, type := InvoiceType.RECEIVABLE,
           total := invoiceTotal items, status := InvoiceStatus.DRAFT }] := by
  have har' : st.accounts.find? (fun a => a.code == "1100") = some ar := har
  have hrev' : st.accounts.find? (fun a => a.code == "4100") = some revenue :=
    hrev
  refine ⟨rfl, ?_, ?_, ?_⟩ <;>
    simp only [createInvoice, findAccountByCode, har', hrev', if_true]
  exact applyBalanceDelta_twice st.accounts ar.id revenue.id
    (invoiceTotal items) (invoiceTotal items)

def itemsTwoByFifty : List InvoiceItem := [{ quantity := 2, unitPrice := 50 }]

theorem createInvoice_receivable_posting_witness :
    (createInvoice stEmpty InvoiceType.RECEIVABLE itemsTwoByFifty 1 20
      3).2 = none ∧
    (createInvoice stEmpty InvoiceType.RECEIVABLE itemsTwoByFifty 1 20
      3).1.entries =
      stEmpty.entries ++
        [{ id := 20, status := EntryStatus.APPROVED, approvedAt := some 3,
           lines := [{ accountId := acctAR.id,
                       debit := invoiceTotal itemsTwoByFifty, credit := 0 },
                     { accountId := acctRevenue.id, debit := 0,
                       credit := invoiceTotal itemsTwoByFifty }] }] ∧
    (createInvoice stEmpty InvoiceType.RECEIVABLE itemsTwoByFifty 1 20
      3).1.accounts =
      stEmpty.accounts.map (fun a =>
        { a with balance := a.balance +
            ((if a.id = acctAR.id then invoiceTotal itemsTwoByFifty else 0) +
             (if a.id = acctRevenue.id then invoiceTotal itemsTwoByFifty
              else 0)) }) ∧
    (createInvoice stEmpty InvoiceType.RECEIVABLE itemsTwoByFifty 1 20
      3).1.invoices =
      stEmpty.invoices ++
        [{ id := 1, type := InvoiceType.RECEIVABLE,
           total := invoiceTotal itemsTwoByFifty,
           status := InvoiceStatus.DRAFT }] :=
  createInvoice_receivable_posting stEmpty itemsTwoByFifty 1 20 3
    acctAR acctRevenue (by decide) (by decide)

/-! ## C8 -/

def cexAccounts : List Account :=
  [{ acctAR with balance := 100 }, { acctRevenue with balance := 100 }]

/-- C8 counterexample: on a state whose only balances are an asset of 100
and matching revenue of 100, the spec's formula (which includes net
income) is satisfied, yet `getBalanceSheet` reports `isBalanced = false` —
the source compares `totalAssets` against `totalLiabilities + totalEquity`
without any net-income term. -/
theorem getBalanceSheet_net_income_cex :
    (getBalanceSheet cexAccounts).isBalanced = false ∧
    specBalanceSheetBalanced cexAccounts := by
  have hA : activeOfType cexAccounts AccountType.ASSET =
      [{ acctAR with balance := 100 }] := rfl
  have hL : activeOfType cexAccounts AccountType.LIABILITY = [] := rfl
  have hE : activeOfType cexAccounts AccountType.EQUITY = [] := rfl
  have hR : activeOfType cexAccounts AccountType.REVENUE =
      [{ acctRevenue with balance := 100 }] := rfl
  have hX : activeOfType cexAccounts AccountType.EXPENSE = [] := rfl
  constructor
  · simp only [getBalanceSheet, hA, hL, hE, sumBalances, List.foldl]
    norm_num
  · simp only [specBalanceSheetBalanced, hA, hL, hE, hR, hX, sumBalances,
      List.foldl]
    norm_num

/-- C8 (amended): the Balance Sheet reports `isBalanced = true` exactly
when `|totalAssets − (totalLiabilities + totalEquity)| < 0.01` over the
active accounts of each type — net income does not enter the check. -/
theorem getBalanceSheet_isBalanced_iff (accounts : List Account) :
    (getBalanceSheet accounts).isBalanced = true ↔
      |((accounts.filter (fun a =>
            decide (a.type = AccountType.ASSET) && a.isActive)).map
          Account.balance).sum -
        (((accounts.filter (fun a =>
              decide (a.type = AccountType.LIABILITY) && a.isActive)).map
            Account.balance).sum +
         ((accounts.filter (fun a =>
              decide (a.type = AccountType.EQUITY) && a.isActive)).map
            Account.balance).sum)| < 1 / 100 := by
  have h : ∀ t, activeOfType accounts t =
      accounts.filter (fun a => decide (a.type = t) && a.isActive) := by
    intro t
    unfold activeOfType
    rw [List.filter_filter]
  simp only [getBalanceSheet, decide_eq_true_eq, sumBalances_eq, h]

/-! ## C9 -/

/-- C9: the Profit & Loss figures are functions of the account state
alone; two requests with different start/end dates over the same accounts
return identical revenue, expense, COGS, operating, gross-profit,
operating-income and net-income totals — the period parameters only feed
the echoed period field. -/
theorem getProfitLoss_period_independent
    (accounts : List Account) (s1 e1 s2 e2 : Nat) :
    (getProfitLoss accounts s1 e1).totalRevenue =
      (getProfitLoss accounts s2 e2).totalRevenue ∧
    (getProfitLoss accounts s1 e1).totalExpenses =
      (getProfitLoss accounts s2 e2).totalExpenses ∧
    (getProfitLoss accounts s1 e1).cogsTotal =
      (getProfitLoss accounts s2 e2).cogsTotal ∧
    (getProfitLoss accounts s1 e1).operatingTotal =
      (getProfitLoss accounts s2 e2).operatingTotal ∧
    (getProfitLoss accounts s1 e1).grossProfit =
      (getProfitLoss accounts s2 e2).grossProfit ∧
    (getProfitLoss accounts s1 e1).operatingIncome =
      (getProfitLoss accounts s2 e2).operatingIncome ∧
    (getProfitLoss accounts s1 e1).netIncome =
      (getProfitLoss accounts s2 e2).netIncome ∧
    (getProfitLoss accounts s1 e1).periodStart = s1 ∧
    (getProfitLoss accounts s1 e1).periodEnd = e1 :=
  ⟨rfl, rfl, rfl, rfl, rfl, rfl, rfl, rfl, rfl⟩

/-! ## Payment-path lemmas -/

lemma recordPayment_not_found (st : ERPState) (iid : Nat) (amount : Rat)
    (pid eid now : Nat) (h : findInvoice st iid = none) :
    recordPayment st iid amount pid eid now =
      (st, some "Invoice not found") := by
  simp only [recordPayment, h]

lemma recordPayment_already_paid (st : ERPState) (iid : Nat) (amount : Rat)
    (pid eid now : Nat) (invoice : Invoice)
    (hfind : findInvoice st iid = some invoice)
    (hpaid : invoice.status = InvoiceStatus.PAID) :
    recordPayment st iid amount pid eid now =
      (st, some "Invoice is already fully paid") := by
  simp only [recordPayment, hfind, if_pos hpaid]

lemma recordPayment_overpay (st : ERPState) (iid : Nat) (amount : Rat)
    (pid eid now : Nat) (invoice : Invoice)
    (hfind : findInvoice st iid = some invoice)
    (hnp : ¬ invoice.status = InvoiceStatus.PAID)
    (hgt : amount > invoice.total - paymentsTotal st.payments iid) :
    recordPayment st iid amount pid eid now =
      (st, some "Payment amount exceeds remaining balance") := by
  simp only [recordPayment, hfind, if_neg hnp, if_pos hgt]

lemma recordPayment_success_state (st : ERPState) (iid : Nat) (amount : Rat)
    (pid eid now : Nat) (invoice : Invoice)
    (hfind : findInvoice st iid = some invoice)
    (hnp : ¬ invoice.status = InvoiceStatus.PAID)
    (hle : ¬ amount > invoice.total - paymentsTotal st.payments iid) :
    (recordPayment st iid amount pid eid now).2 = none ∧
    (recordPayment st iid amount pid eid now).1.payments =
      st.payments ++ [{ id := pid, invoiceId := iid, amount := amount }] ∧
    (recordPayment st iid amount pid eid now).1.invoices =
      st.invoices.map (fun i =>
        if i.id = iid then
          { i with status :=
              if paymentsTotal st.payments iid + amount ≥ invoice.total
              then InvoiceStatus.PAID else InvoiceStatus.PARTIAL }
        else i) := by
  simp only [recordPayment, hfind, if_neg hnp, if_neg hle]
  refine ⟨?_, ?_, ?_⟩ <;>
    first
      | trivial
      | (split <;>
          first
            | trivial
            | (split <;>
                first
                  | trivial
                  | (split <;>
                      first
                        | trivial
                        | (split <;> trivial))))

lemma createPayment_not_found (st : ERPState) (iid : Nat) (amount : Rat)
    (pid : Nat) (h : findInvoice st iid = none) :
    createPayment st iid amount pid = (st, some "Invoice not found") := by
  simp only [createPayment, h]

lemma createPayment_overpay (st : ERPState) (iid : Nat) (amount : Rat)
    (pid : Nat) (invoice : Invoice)
    (hfind : findInvoice st iid = some invoice)
    (hgt : amount > invoice.total - paymentsTotal st.payments iid) :
    createPayment st iid amount pid =
      (st, some "Payment amount exceeds remaining balance") := by
  simp only [createPayment, hfind, if_pos hgt]

lemma createPayment_success_state (st : ERPState) (iid : Nat) (amount : Rat)
    (pid : Nat) (invoice : Invoice)
    (hfind : findInvoice st iid = some invoice)
    (hle : ¬ amount > invoice.total - paymentsTotal st.payments iid) :
    (createPayment st iid amount pid).2 = none ∧
    (createPayment st iid amount pid).1.payments =
      st.payments ++ [{ id := pid, invoiceId := iid, amount := amount }] ∧
    (createPayment st iid amount pid).1.invoices =
      st.invoices.map (fun i =>
        if i.id = iid then
          { i with status :=
              if paymentsTotal st.payments iid + amount = invoice.total
              then InvoiceStatus.PAID else InvoiceStatus.PARTIAL }
        else i) ∧
    (createPayment st iid amount pid).1.entries = st.entries := by
  simp only [createPayment, hfind, if_neg hle]
  refine ⟨?_, ?_, ?_, ?_⟩ <;> trivial

lemma createPayment_entries_unchanged (st : ERPState) (iid : Nat)
    (amount : Rat) (pid : Nat) :
    (createPayment st iid amount pid).1.entries = st.entries := by
  cases hf : findInvoice st iid with
  | none => rw [createPayment_not_found st iid amount pid hf]
  | some invoice =>
      by_cases hgt : amount > invoice.total - paymentsTotal st.payments iid
      · rw [createPayment_overpay st iid amount pid invoice hf hgt]
      · exact (createPayment_success_state st iid amount pid invoice hf
          hgt).2.2.2

/-- After appending one payment for invoice `iid` whose amount fits in the
remaining balance, and updating only invoice statuses, the cumulative
payments of every invoice still fit its total. -/
lemma invariant_after_payment (st : ERPState) (iid : Nat) (amount : Rat)
    (invoice : Invoice) (f : Invoice → Invoice)
    (hfid : ∀ i, (f i).id = i.id) (hftotal : ∀ i, (f i).total = i.total)
    (hnodup : (st.invoices.map Invoice.id).Nodup)
    (hfind : findInvoice st iid = some invoice)
    (hinv : ∀ inv ∈ st.invoices,
      paymentsTotal st.payments inv.id ≤ inv.total)
    (hle : amount ≤ invoice.total - paymentsTotal st.payments iid)
    (p : Payment) (hpinv : p.invoiceId = iid) (hpam : p.amount = amount) :
    ∀ inv ∈ st.invoices.map (fun i => if i.id = iid then f i else i),
      paymentsTotal (st.payments ++ [p]) inv.id ≤ inv.total := by
  intro inv hmem
  rcases List.mem_map.mp hmem with ⟨i0, hi0, heq⟩
  have hinvmem : invoice ∈ st.invoices := List.mem_of_find?_eq_some hfind
  have hinvid : invoice.id = iid := by
    have := List.find?_some hfind
    simpa using this
  rw [paymentsTotal_append]
  by_cases h0 : i0.id = iid
  · have hi0inv : i0 = invoice :=
      List.inj_on_of_nodup_map hnodup hi0 hinvmem (by rw [h0, hinvid])
    have hid : inv.id = iid := by
      rw [← heq, if_pos h0, hfid, h0]
    have htot : inv.total = invoice.total := by
      rw [← heq, if_pos h0, hftotal, hi0inv]
    rw [hid, htot, if_pos hpinv, hpam]
    have := hinv invoice hinvmem
    rw [hinvid] at this
    linarith
  · have heq' : inv = i0 := by rw [← heq, if_neg h0]
    have hid : inv.id = i0.id := by rw [heq']
    have : ¬ p.invoiceId = inv.id := by
      rw [hpinv, hid]
      exact fun hc => h0 hc.symm
    rw [if_neg this, add_zero, heq']
    exact hinv i0 hi0

/-! ## C5 -/

/-- C5: a payment whose amount exceeds the invoice's remaining balance is
rejected by both payment paths with an error and the state — payments,
journal entries, account balances, invoice statuses — returned exactly as
it was; and under primary-key uniqueness of invoices, if every invoice's
cumulative payments fit its total before a call, they still do after it,
whichever path ran and whether it succeeded or failed. -/
theorem payments_never_exceed_invoice_total
    (st : ERPState) (iid : Nat) (amount : Rat) (pid eid now : Nat)
    (hnodup : (st.invoices.map Invoice.id).Nodup)
    (hinv : ∀ inv ∈ st.invoices,
      paymentsTotal st.payments inv.id ≤ inv.total) :
    (∀ invoice, findInvoice st iid = some invoice →
      amount > invoice.total - paymentsTotal st.payments iid →
      (recordPayment st iid amount pid eid now).2.isSome ∧
      (recordPayment st iid amount pid eid now).1 = st ∧
      (createPayment st iid amount pid).2.isSome ∧
      (createPayment st iid amount pid).1 = st) ∧
    (∀ inv ∈ (recordPayment st iid amount pid eid now).1.invoices,
      paymentsTotal (recordPayment st iid amount pid eid now).1.payments
        inv.id ≤ inv.total) ∧
    (∀ inv ∈ (createPayment st iid amount pid).1.invoices,
      paymentsTotal (createPayment st iid amount pid).1.payments
        inv.id ≤ inv.total) := by
  refine ⟨?_, ?_, ?_⟩
  · intro invoice hfind hgt
    have hrec : recordPayment st iid amount pid eid now =
        (st, some "Invoice is already fully paid") ∨
        recordPayment st iid amount pid eid now =
          (st, some "Payment amount exceeds remaining balance") := by
      by_cases hpaid : invoice.status = InvoiceStatus.PAID
      · exact Or.inl
          (recordPayment_already_paid st iid amount pid eid now invoice
            hfind hpaid)
      · exact Or.inr
          (recordPayment_overpay st iid amount pid eid now invoice
            hfind hpaid hgt)
    have hcre := createPayment_overpay st iid amount pid invoice hfind hgt
    rcases hrec with h | h <;>
      exact ⟨by rw [h]; rfl, by rw [h], by rw [hcre]; rfl, by rw [hcre]⟩
  · cases hf : findInvoice st iid with
    | none =>
        rw [recordPayment_not_found st iid amount pid eid now hf]
        exact hinv
    | some invoice =>
        by_cases hpaid : invoice.status = InvoiceStatus.PAID
        · rw [recordPayment_already_paid st iid amount pid eid now invoice
            hf hpaid]
          exact hinv
        · by_cases hgt : amount > invoice.total - paymentsTotal st.payments iid
          · rw [recordPayment_overpay st iid amount pid eid now invoice
              hf hpaid hgt]
            exact hinv
          · obtain ⟨-, hpay, hinvcs⟩ :=
              recordPayment_success_state st iid amount pid eid now invoice
                hf hpaid hgt
            rw [hpay, hinvcs]
            exact invariant_after_payment st iid amount invoice
              (fun i => { i with status :=
                            if paymentsTotal st.payments iid + amount ≥
                                invoice.total
                            then InvoiceStatus.PAID
                            else InvoiceStatus.PARTIAL })
              (fun _ => rfl) (fun _ => rfl) hnodup hf hinv
              (not_lt.mp hgt) { id := pid, invoiceId := iid, amount := amount }
              rfl rfl
  · cases hf : findInvoice st iid with
    | none =>
        rw [createPayment_not_found st iid amount pid hf]
        exact hinv
    | some invoice =>
        by_cases hgt : amount > invoice.total - paymentsTotal st.payments iid
        · rw [createPayment_overpay st iid amount pid invoice hf hgt]
          exact hinv
        · obtain ⟨-, hpay, hinvcs, -⟩ :=
            createPayment_success_state st iid amount pid invoice hf hgt
          rw [hpay, hinvcs]
          exact invariant_after_payment st iid amount invoice
            (fun i => { i with status :=
                          if paymentsTotal st.payments iid + amount =
                              invoice.total
                          then InvoiceStatus.PAID
                          else InvoiceStatus.PARTIAL })
            (fun _ => rfl) (fun _ => rfl) hnodup hf hinv
            (not_lt.mp hgt) { id := pid, invoiceId := iid, amount := amount }
            rfl rfl

def invPartial : Invoice :=
  { id := 1, type := InvoiceType.RECEIVABLE, total := 100,
    status := InvoiceStatus.PARTIAL }

def payExisting : Payment := { id := 5, invoiceId := 1, amount := 60 }

def stPay : ERPState :=
  { accounts := baseAccounts, entries := [], invoices := [invPartial],
    payments := [payExisting], cashFlows := [], audit := [] }

theorem payments_never_exceed_invoice_total_witness :
    (recordPayment stPay 1 50 9 10 0).2.isSome ∧
    (recordPayment stPay 1 50 9 10 0).1 = stPay ∧
    (createPayment stPay 1 50 9).2.isSome ∧
    (createPayment stPay 1 50 9).1 = stPay :=
  (payments_never_exceed_invoice_total stPay 1 50 9 10 0 (by decide)
      (by
        intro inv hmem
        have : inv = invPartial := by
          simpa [stPay] using hmem
        subst this
        norm_num [paymentsTotal, stPay, payExisting, invPartial,
          List.filter, List.foldl])).1
    invPartial (by decide)
    (by norm_num [paymentsTotal, stPay, payExisting, invPartial,
      List.filter, List.foldl])

/-! ## C6 -/

/-- C6 counterexample: a payment created through the `createPayment`
controller succeeds — the payment row is persisted — yet the journal is
untouched: no second auto-approved journal entry exists, even though the
posting accounts (codes 1000, 1100, 2000) are all present in the state. -/
theorem createPayment_no_journal_entry_cex :
    (createPayment stPay 1 40 9).2 = none ∧
    (createPayment stPay 1 40 9).1.entries = stPay.entries ∧
    (createPayment stPay 1 40 9).1.payments =
      stPay.payments ++ [{ id := 9, invoiceId := 1, amount := 40 }] := by
  obtain ⟨h1, h2, -, h4⟩ :=
    createPayment_success_state stPay 1 40 9 invPartial (by decide)
      (by norm_num [paymentsTotal, stPay, payExisting, invPartial,
        List.filter, List.foldl])
  exact ⟨h1, h4, h2⟩

/-- C6 (amended): only `recordPayment` posts to the ledger.  On success,
when the Cash account (code 1000) exists it creates one auto-approved
journal entry — Cash debit / AR credit when the invoice is RECEIVABLE and
account 1100 exists, AP debit / Cash credit when the invoice is PAYABLE
and account 2000 exists — applies the corresponding balance deltas, and
sets the invoice status to PAID when cumulative payments reach the total
and PARTIAL otherwise.  `createPayment` persists the payment and updates
the invoice status but never creates a journal entry. -/
theorem recordPayment_posting
    (st : ERPState) (iid : Nat) (amount : Rat) (pid eid now : Nat)
    (invoice : Invoice) (cash : Account)
    (hfind : findInvoice st iid = some invoice)
    (hnp : ¬ invoice.status = InvoiceStatus.PAID)
    (hle : ¬ amount > invoice.total - paymentsTotal st.payments iid)
    (hcash : findAccountByCode st "1000" = some cash) :
    (∀ ar, invoice.type = InvoiceType.RECEIVABLE →
      findAccountByCode st "1100" = some ar →
      (recordPayment st iid amount pid eid now).2 = none ∧
      (recordPayment st iid amount pid eid now).1.entries =
        st.entries ++
          [{ id := eid, status := EntryStatus.APPROVED,
             approvedAt := some now,
             lines := [{ accountId := cash.id, debit := amount, credit := 0 },
                       { accountId := ar.id, debit := 0,
                         credit := amount }] }] ∧
      (recordPayment st iid amount pid eid now).1.accounts =
        applyBalanceDelta (applyBalanceDelta st.accounts cash.id amount)
          ar.id (-amount)) ∧
    (∀ ap, invoice.type = InvoiceType.PAYABLE →
      findAccountByCode st "2000" = some ap →
      (recordPayment st iid amount pid eid now).2 = none ∧
      (recordPayment st iid amount pid eid now).1.entries =
        st.entries ++
          [{ id := eid, status := EntryStatus.APPROVED,
             approvedAt := some now,
             lines := [{ accountId := ap.id, debit := amount, credit := 0 },
                       { accountId := cash.id, debit := 0,
                         credit := amount }] }] ∧
      (recordPayment st iid amount pid eid now).1.accounts =
        applyBalanceDelta (applyBalanceDelta st.accounts ap.id (-amount))
          cash.id (-amount)) ∧
    (findInvoice (recordPayment st iid amount pid eid now).1 iid =
      some { invoice with status :=
               if paymentsTotal st.payments iid + amount ≥ invoice.total
               then InvoiceStatus.PAID else InvoiceStatus.PARTIAL }) ∧
    ((recordPayment st iid amount pid eid now).1.payments =
      st.payments ++ [{ id := pid, invoiceId := iid, amount := amount }]) ∧
    (∀ s i a p, (createPayment s i a p).1.entries = s.entries) := by
  have hcash' : st.accounts.find? (fun a => a.code == "1000") = some cash :=
    hcash
  obtain ⟨-, hpay, hinvcs⟩ :=
    recordPayment_success_state st iid amount pid eid now invoice hfind
      hnp hle
  refine ⟨?_, ?_, ?_, hpay, fun s i a p =>
    createPayment_entries_unchanged s i a p⟩
  · intro ar htype har
    have har' : st.accounts.find? (fun a => a.code == "1100") = some ar :=
      har
    refine ⟨?_, ?_, ?_⟩ <;>
      simp only [recordPayment, hfind, if_neg hnp, if_neg hle,
        findAccountByCode, hcash', har', htype, paymentLines,
        paymentBalanceUpdate, Option.isSome_some, Option.isSome,
        true_or, if_true]
  · intro ap htype hap
    have hap' : st.accounts.find? (fun a => a.code == "2000") = some ap :=
      hap
    cases h11 : st.accounts.find? (fun a => a.code == "1100") with
    | none =>
        refine ⟨?_, ?_, ?_⟩ <;>
          simp only [recordPayment, hfind, if_neg hnp, if_neg hle,
            findAccountByCode, hcash', hap', h11, htype, paymentLines,
            paymentBalanceUpdate, Option.isSome_some, Option.isSome,
            true_or, or_true, if_true]
    | some ar0 =>
        refine ⟨?_, ?_, ?_⟩ <;>
          simp only [recordPayment, hfind, if_neg hnp, if_neg hle,
            findAccountByCode, hcash', hap', h11, htype, paymentLines,
            paymentBalanceUpdate, Option.isSome_some, Option.isSome,
            true_or, or_true, if_true]
  · show ((recordPayment st iid amount pid eid now).1.invoices).find?
        (fun i => i.id == iid) = _
    rw [hinvcs]
    exact find?_key_map Invoice.id iid
      (fun i => { i with status :=
                    if paymentsTotal st.payments iid + amount ≥ invoice.total
                    then InvoiceStatus.PAID else InvoiceStatus.PARTIAL })
      (fun _ => rfl) st.invoices invoice hfind

theorem recordPayment_posting_witness :
    (recordPayment stPay 1 40 9 10 0).2 = none ∧
    (recordPayment stPay 1 40 9 10 0).1.entries =
      stPay.entries ++
        [{ id := 10, status := EntryStatus.APPROVED, approvedAt := some 0,
           lines := [{ accountId := acctCash.id, debit := 40, credit := 0 },
                     { accountId := acctAR.id, debit := 0,
                       credit := 40 }] }] ∧
    (recordPayment stPay 1 40 9 10 0).1.accounts =
      applyBalanceDelta (applyBalanceDelta stPay.accounts acctCash.id 40)
        acctAR.id (-40) :=
  (recordPayment_posting stPay 1 40 9 10 0 invPartial acctCash (by decide)
      (by decide)
      (by norm_num [paymentsTotal, stPay, payExisting, invPartial,
        List.filter, List.foldl])
      (by decide)).1
    acctAR rfl (by decide)

end ERP
